import Mathlib

/-!
A shallow embedding of `rust/net/src/connect_state.rs` from the libsignal
repository: the connection-establishment orchestrator (`connect_ws`), the
attested-channel layer (`connect_attested_ws`), and the route-outcome
scorer state they share.  Collaborators that live outside this source file
(the multi-route driver `crate::infra::route::connect`, the
`ConnectionOutcomes` scorer and the redacted route-description display
from `libsignal-net-infra`) are modelled from the specification, as
indicated on each definition.  Durations and instants are modelled as
abstract `Nat` ticks.
-/

namespace LibsignalNet

/-- Transport part of an unresolved route: TLS over TCP towards an
unresolved hostname.  Mirrors `UnresolvedTransportRoute`
(`TlsRoute { fragment: TlsRouteFragment { sni, .. }, inner: Direct(TcpRoute { address, port }) }`);
the direct/proxy distinction is flattened away since no claim inspects it. -/
structure TransportRoute where
  sni : String
  address : String
  port : Nat
deriving DecidableEq

/-- Mirrors `HttpRouteFragment { host_header, path_prefix, front_name }`. -/
structure HttpRouteFragment where
  host_header : String
  path_prefix : String
  front_name : Option String
deriving DecidableEq

/-- Mirrors `WebSocketRouteFragment { ws_config, endpoint, headers }`; the
websocket configuration is opaque to every claim (only its preservation
matters), so it is modelled as a plain number, and the header map as an
association list. -/
structure WebSocketRouteFragment where
  ws_config : Nat
  endpoint : String
  headers : List (String × String)
deriving DecidableEq

/-- Mirrors `HttpsTlsRoute { fragment: HttpRouteFragment, inner: transport }`. -/
structure HttpsTlsRoute where
  fragment : HttpRouteFragment
  inner : TransportRoute
deriving DecidableEq

/-- Mirrors `UnresolvedWebsocketServiceRoute = WebSocketRoute { fragment, inner }`. -/
structure WebSocketRoute where
  fragment : WebSocketRouteFragment
  inner : HttpsTlsRoute
deriving DecidableEq

/-- Modelled from the spec: the "Unresolved Route Descriptor", an immutable
loggable-but-redacted description of a path to the service (host, port,
proxy/fronting label).  The concrete `UnresolvedRouteDescription` type
lives in `libsignal-net-infra`, outside this source file. -/
structure UnresolvedRouteDescription where
  host : String
  port : Nat
  front_name : Option String
deriving DecidableEq

/-- The description saved from a route before resolution
(`ResolveWithSavedDescription`). -/
def describeRoute (r : WebSocketRoute) : UnresolvedRouteDescription :=
  { host := r.inner.inner.address
    port := r.inner.inner.port
    front_name := r.inner.fragment.front_name }

/-- Modelled from the spec: the log-safe rendering of a route description; a
direct route renders as "REDACTED:<port>" and a fronted route as
"REDACTED:<port> fronted by <front-label>".  (The `Display` impl lives in
`libsignal-net-infra`, outside this source file.) -/
def UnresolvedRouteDescription.render (d : UnresolvedRouteDescription) : String :=
  "REDACTED:" ++ toString d.port ++
    match d.front_name with
    | none => ""
    | some f => " fronted by " ++ f

/-- Mirrors `RouteInfo { unresolved: UnresolvedRouteDescription }`. -/
structure RouteInfo where
  unresolved : UnresolvedRouteDescription
deriving DecidableEq

/-- `Display for RouteInfo` delegates to the description's log-safe display. -/
def RouteInfo.render (i : RouteInfo) : String :=
  i.unresolved.render

/-- Mirrors `ConnectionOutcomeParams`; the growth factors are modelled as
naturals (no claim depends on their fractional part). -/
structure ConnectionOutcomeParams where
  age_cutoff : Nat
  cooldown_growth_factor : Nat
  max_count : Nat
  max_delay : Nat
  count_growth_factor : Nat
deriving DecidableEq

/-- Modelled from the spec: a Route Outcome Record holds a
consecutive-failure weight and a last-updated timestamp. -/
structure OutcomeRecord where
  weight : Nat
  last_updated : Nat
deriving DecidableEq

/-- Result of one finished connection attempt over one route. -/
inductive Outcome where
  | success
  | failure
deriving DecidableEq

/-- Modelled from the spec: `recordOutcome` of the Outcome Scorer — on
failure the weight grows by `count_growth_factor`, saturating at
`max_count`; on success it resets to zero; history older than `age_cutoff`
is discarded before the update is applied. -/
def recordOutcome (p : ConnectionOutcomeParams) (prior : Option OutcomeRecord)
    (o : Outcome) (now : Nat) : OutcomeRecord :=
  let priorWeight :=
    match prior with
    | none => 0
    | some r => if p.age_cutoff < now - r.last_updated then 0 else r.weight
  match o with
  | Outcome.success => { weight := 0, last_updated := now }
  | Outcome.failure =>
      { weight := min p.max_count (priorWeight + p.count_growth_factor)
        last_updated := now }

/-- Modelled from the spec: `ConnectionOutcomes`, the outcome-record table
keyed by route identity. -/
@[ext]
structure ConnectionOutcomes where
  params : ConnectionOutcomeParams
  table : WebSocketRoute → Option OutcomeRecord

/-- Apply a single outcome update; only the entry of route `r` changes. -/
def applyOutcome (c : ConnectionOutcomes) (r : WebSocketRoute) (o : Outcome)
    (now : Nat) : ConnectionOutcomes :=
  { c with table := fun s =>
      if s = r then some (recordOutcome c.params (c.table r) o now)
      else c.table s }

/-- Modelled from the spec: `ConnectionOutcomes::apply_outcome_updates` —
fold a batch of per-route outcome updates into the table, all stamped with
the batch's `finished_at` time. -/
def apply_outcome_updates (c : ConnectionOutcomes)
    (updates : List (WebSocketRoute × Outcome)) (now : Nat) :
    ConnectionOutcomes :=
  updates.foldl (fun acc u => applyOutcome acc u.1 u.2 now) c

/-- Mirrors `ConnectState`: the per-attempt timeout and the shared record of
connection outcomes.  The resolver, transport connector and RNG context are
folded into the attempt environment of `connect_ws`. -/
structure ConnectState where
  connect_timeout : Nat
  attempts_record : ConnectionOutcomes

/-- Behaviour of one route's connection attempt as seen by the orchestrator:
it yields a connection after `dur` ticks, fails with a (translated)
websocket-service connect error after `dur` ticks, or never resolves.  This
folds together DNS resolution, the transport stage and the caller-supplied
application-stage connector. -/
inductive Attempt (C W : Type) where
  | ok (conn : C) (dur : Nat)
  | err (w : W) (dur : Nat)
  | hangs

/-- Mirrors `std::ops::ControlFlow` as used by the per-failure classifier. -/
inductive ControlFlow (E : Type) where
  | Continue
  | Break (e : E)
deriving DecidableEq

/-- Mirrors `ConnectError<E>`. -/
inductive ConnectError (E : Type) where
  | NoResolvedRoutes
  | AllAttemptsFailed
  | FatalConnect (e : E)
deriving DecidableEq

/-- Mirrors `TimeoutOr<E>`. -/
inductive TimeoutOr (E : Type) where
  | Timeout (attempt_duration : Nat)
  | Other (e : E)
deriving DecidableEq

/-- Time taken by one attempt that resolves (`0` for one that hangs). -/
def attemptDur {C W : Type} (env : WebSocketRoute → Attempt C W)
    (r : WebSocketRoute) : Nat :=
  match env r with
  | Attempt.ok _ d => d
  | Attempt.err _ d => d
  | Attempt.hangs => 0

/-- Modelled from the spec: the multi-route driver
(`crate::infra::route::connect`), restricted to one ranked candidate list
(ranking and per-route delays are reflected in the order and durations of
the given list).  Routes are attempted in order; a failure is classified —
`Continue` records a failure outcome for that route and moves on, `Break e`
resolves the whole attempt with `FatalConnect e`; a success records a
success outcome and resolves with the connection and the route's saved
description; `none` means the attempt future never resolves.  The returned
number is the elapsed time at resolution. -/
def attemptRoutes {C W E : Type} (env : WebSocketRoute → Attempt C W)
    (classify : W → ControlFlow E) :
    List WebSocketRoute →
      Option (Except (ConnectError E) (C × UnresolvedRouteDescription) ×
        List (WebSocketRoute × Outcome) × Nat)
  | [] => some (Except.error ConnectError.AllAttemptsFailed, [], 0)
  | r :: rest =>
    match env r with
    | Attempt.hangs => none
    | Attempt.ok c d =>
      some (Except.ok (c, describeRoute r), [(r, Outcome.success)], d)
    | Attempt.err w d =>
      match classify w with
      | ControlFlow.Break e =>
        some (Except.error (ConnectError.FatalConnect e), [], d)
      | ControlFlow.Continue =>
        match attemptRoutes env classify rest with
        | none => none
        | some (res, outs, t) => some (res, (r, Outcome.failure) :: outs, d + t)

/-- Modelled from the spec: an empty candidate list resolves immediately to
`NoResolvedRoutes`; otherwise the routes are driven in ranked order. -/
def routeConnect {C W E : Type} (env : WebSocketRoute → Attempt C W)
    (classify : W → ControlFlow E) (routes : List WebSocketRoute) :
    Option (Except (ConnectError E) (C × UnresolvedRouteDescription) ×
      List (WebSocketRoute × Outcome) × Nat) :=
  match routes with
  | [] => some (Except.error ConnectError.NoResolvedRoutes, [], 0)
  | _ :: _ => attemptRoutes env classify routes

/-- Embedding of `ConnectState::connect_ws`: race the multi-route attempt
against `connect_timeout`.  If the deadline elapses before the attempt
resolves, the call returns `Timeout { attempt_duration = connect_timeout }`
and the state is returned untouched; otherwise the collected outcome
updates are merged (stamped with the attempt's finish time) whether the
attempt succeeded or failed, and a success additionally wraps the winning
route's saved description into a `RouteInfo`. -/
def connect_ws {C W E : Type} (state : ConnectState) (start : Nat)
    (routes : List WebSocketRoute) (env : WebSocketRoute → Attempt C W)
    (classify : W → ControlFlow E) :
    Except (TimeoutOr (ConnectError E)) (C × RouteInfo) × ConnectState :=
  match routeConnect env classify routes with
  | none => (Except.error (TimeoutOr.Timeout state.connect_timeout), state)
  | some (result, outs, elapsed) =>
    if elapsed ≤ state.connect_timeout then
      let merged : ConnectState :=
        { state with attempts_record :=
            apply_outcome_updates state.attempts_record outs (start + elapsed) }
      match result with
      | Except.error e => (Except.error (TimeoutOr.Other e), merged)
      | Except.ok (c, desc) => (Except.ok (c, { unresolved := desc }), merged)
    else (Except.error (TimeoutOr.Timeout state.connect_timeout), state)

/-- Mirrors `ErrorClass` from the connection manager: the classification of
a per-route connect error. -/
inductive ErrorClass where
  | Intermittent
  | RetryAt (t : Nat)
  | Fatal
deriving DecidableEq

/-- Modelled from the spec: the caller-facing error type of the attested
layer (`crate::enclave::Error`), restricted to the variants this source
file produces. -/
inductive EnclaveError (W H : Type) where
  | ConnectionTimedOut
  | WebSocketConnect (e : W)
  | AttestationFailed (h : H)
deriving DecidableEq

/-- The error classifier installed by `connect_attested_ws`: intermittent
errors continue to the next route; rate-limited and fatal errors break with
the wrapped websocket-connect error. -/
def attestedClassifier {W H : Type} (cls : W → ErrorClass) (w : W) :
    ControlFlow (EnclaveError W H) :=
  match cls w with
  | ErrorClass.Intermittent => ControlFlow.Continue
  | ErrorClass.RetryAt _ => ControlFlow.Break (EnclaveError.WebSocketConnect w)
  | ErrorClass.Fatal => ControlFlow.Break (EnclaveError.WebSocketConnect w)

/-- The orchestrator-error translation performed by `connect_attested_ws`:
timeouts, `NoResolvedRoutes` and `AllAttemptsFailed` collapse to
`ConnectionTimedOut`; a classifier-produced fatal error passes through
unchanged. -/
def attestedMapErr {W H : Type}
    (e : TimeoutOr (ConnectError (EnclaveError W H))) : EnclaveError W H :=
  match e with
  | TimeoutOr.Timeout _ => EnclaveError.ConnectionTimedOut
  | TimeoutOr.Other ConnectError.NoResolvedRoutes => EnclaveError.ConnectionTimedOut
  | TimeoutOr.Other ConnectError.AllAttemptsFailed => EnclaveError.ConnectionTimedOut
  | TimeoutOr.Other (ConnectError.FatalConnect e) => e

/-- Mirrors `crate::auth::Auth`; the exact credential encoding is outside
this source file and irrelevant to every claim, so the header value is kept
abstract as the raw credential pair. -/
structure Auth where
  username : String
  password : String
deriving DecidableEq

/-- Mirrors `Auth::as_header()`: the authorization header entry derived from
the supplied credentials. -/
def Auth.as_header (a : Auth) : String × String :=
  ("authorization", a.username ++ ":" ++ a.password)

/-- Insertion of one header entry following the documented contract of the
external header map's `extend`: for the single entry yielded, any values
already present under the same name are replaced (as by `insert`), while
entries under every other name are untouched; the new entry is appended. -/
def headerInsert (h : String × String) (headers : List (String × String)) :
    List (String × String) :=
  headers.filter (fun e => e.1 ≠ h.1) ++ [h]

/-- The route transformation of `connect_attested_ws`: extend every
candidate's websocket-fragment headers with the authorization header,
with the header map's replace-on-same-name extension semantics. -/
def injectAuthHeader (auth : Auth) (r : WebSocketRoute) : WebSocketRoute :=
  { r with fragment :=
      { r.fragment with
        headers := headerInsert auth.as_header r.fragment.headers } }

/-- The augmented route set passed by `connect_attested_ws` to `connect_ws`. -/
def attestedWsRoutes (auth : Auth) (routes : List WebSocketRoute) :
    List WebSocketRoute :=
  routes.map (injectAuthHeader auth)

/-- Embedding of `ConnectState::connect_attested_ws`: inject the auth header
into every route, run `connect_ws` with the intermittent/fatal classifier,
translate orchestrator errors through `attestedMapErr`, then perform the
attestation handshake over the winning connection (the handshake is an
external capability; its failure is surfaced as-is). -/
def connect_attested_ws {C W H A : Type} (state : ConnectState) (start : Nat)
    (routes : List WebSocketRoute) (auth : Auth)
    (env : WebSocketRoute → Attempt C W) (cls : W → ErrorClass)
    (handshake : C → Except H A) :
    Except (EnclaveError W H) (A × RouteInfo) × ConnectState :=
  match connect_ws state start (attestedWsRoutes auth routes) env
      (attestedClassifier cls) with
  | (Except.error e, s2) => (Except.error (attestedMapErr e), s2)
  | (Except.ok (c, info), s2) =>
    match handshake c with
    | Except.error h => (Except.error (EnclaveError.AttestationFailed h), s2)
    | Except.ok a => (Except.ok (a, info), s2)

/-- Check whether `needle` occurs at the head of `hay`. -/
def prefixAt : List Char → List Char → Bool
  | [], _ => true
  | _ :: _, [] => false
  | c :: cs, d :: ds => c == d && prefixAt cs ds

/-- Check whether `needle` occurs as a contiguous substring of `hay`. -/
def containsSub (needle : List Char) : List Char → Bool
  | [] => needle.isEmpty
  | d :: ds => prefixAt needle (d :: ds) || containsSub needle ds

/-- The transport route of the source tests (`FAKE_TRANSPORT_ROUTE`):
hostname "direct-host", port 1234, SNI "fake-sni". -/
def fakeTransportRoute : TransportRoute :=
  { sni := "fake-sni", address := "direct-host", port := 1234 }

/-- The first fake websocket route of the source tests (no front). -/
def fakeRoute1 : WebSocketRoute :=
  { fragment := { ws_config := 0, endpoint := "/first", headers := [] }
    inner :=
      { fragment :=
          { host_header := "first-host", path_prefix := "", front_name := none }
        inner := fakeTransportRoute } }

/-- The second fake websocket route of the source tests (fronted by
"proxyf"). -/
def fakeRoute2 : WebSocketRoute :=
  { fragment := { ws_config := 0, endpoint := "/second", headers := [] }
    inner :=
      { fragment :=
          { host_header := "second-host", path_prefix := ""
            front_name := some "proxyf" }
        inner := fakeTransportRoute } }

/-- A route that already carries an authorization header (plus an unrelated
one) before the attested layer injects its own credentials. -/
def preAuthRoute : WebSocketRoute :=
  { fragment :=
      { ws_config := 0, endpoint := "/a"
        headers := [("authorization", "old"), ("x-extra", "keep")] }
    inner :=
      { fragment := { host_header := "h", path_prefix := "", front_name := none }
        inner := fakeTransportRoute } }

/-- A route whose unresolved hostname happens to coincide with the fixed
redaction marker used by the log-safe display. -/
def badRoute : WebSocketRoute :=
  { fragment := { ws_config := 0, endpoint := "/x", headers := [] }
    inner :=
      { fragment := { host_header := "h", path_prefix := "", front_name := none }
        inner := { sni := "s", address := "REDACTED", port := 7 } } }

/-- Small outcome parameters used by the concrete evaluations below. -/
def testParams : ConnectionOutcomeParams :=
  { age_cutoff := 1000, cooldown_growth_factor := 10, max_count := 5
    max_delay := 30, count_growth_factor := 1 }

/-- An outcome table with no recorded route history. -/
def emptyOutcomes : ConnectionOutcomes :=
  { params := testParams, table := fun _ => none }

/-- A connect state with a 5-tick deadline and empty outcome history. -/
def stateA : ConnectState :=
  { connect_timeout := 5, attempts_record := emptyOutcomes }

/-- An attempt environment in which every route hangs forever. -/
def envHang : WebSocketRoute → Attempt Unit Unit :=
  fun _ => Attempt.hangs

/-- An attempt environment in which every route connects after 2 ticks. -/
def envOk : WebSocketRoute → Attempt Unit Unit :=
  fun _ => Attempt.ok () 2

/-- An attempt environment mirroring the source test scenario: the first
fake route fails after 3 ticks, every other route connects after 2. -/
def envAB : WebSocketRoute → Attempt Unit Unit :=
  fun r => if r = fakeRoute1 then Attempt.err () 3 else Attempt.ok () 2

/-- A classifier that always continues to the next route. -/
def contA : Unit → ControlFlow Unit :=
  fun _ => ControlFlow.Continue

/-- A classifier that always breaks the whole attempt. -/
def brkA : Unit → ControlFlow Unit :=
  fun _ => ControlFlow.Break ()

/-- An error classification that marks every error intermittent. -/
def clsIntermittent : Unit → ErrorClass :=
  fun _ => ErrorClass.Intermittent

/-- Concrete credentials for the attested-layer evaluations. -/
def authA : Auth :=
  { username := "u", password := "p" }

/-- A handshake capability that always succeeds. -/
def handshakeOk : Unit → Except Unit Unit :=
  fun _ => Except.ok ()

/-- On a non-empty candidate list the driver goes straight to the ranked
attempt loop. -/
theorem routeConnect_ne_nil {C W E : Type} (env : WebSocketRoute → Attempt C W)
    (classify : W → ControlFlow E) {routes : List WebSocketRoute}
    (h : routes ≠ []) :
    routeConnect env classify routes = attemptRoutes env classify routes := by
  cases routes with
  | nil => exact absurd rfl h
  | cons a l => rfl

/-- When the multi-route attempt resolves within the deadline, `connect_ws`
merges the collected outcome updates and forwards the attempt's result. -/
theorem connect_ws_resolved {C W E : Type} (state : ConnectState) (start : Nat)
    (routes : List WebSocketRoute) (env : WebSocketRoute → Attempt C W)
    (classify : W → ControlFlow E)
    (res : Except (ConnectError E) (C × UnresolvedRouteDescription))
    (outs : List (WebSocketRoute × Outcome)) (el : Nat)
    (hres : routeConnect env classify routes = some (res, outs, el))
    (hel : el ≤ state.connect_timeout) :
    connect_ws state start routes env classify =
      ((match res with
        | Except.error e => Except.error (TimeoutOr.Other e)
        | Except.ok (c, desc) => Except.ok (c, { unresolved := desc })),
       { state with attempts_record :=
           apply_outcome_updates state.attempts_record outs (start + el) }) := by
  cases res with
  | error e =>
    simp [connect_ws, hres, hel]
  | ok v =>
    obtain ⟨c, desc⟩ := v
    simp [connect_ws, hres, hel]

/-- C1: for every call to `connect_ws`, with any route set and any
configured deadline, if the deadline elapses before the multi-route attempt
resolves (it resolves too late, or never), the call returns
`Timeout { attempt_duration = connect_timeout }` and the shared
outcome-record state after the call is identical to its state before the
call: no outcome updates from the aborted attempt are merged. -/
theorem connect_ws_merge_on_timeout {C W E : Type} (state : ConnectState)
    (start : Nat) (routes : List WebSocketRoute)
    (env : WebSocketRoute → Attempt C W) (classify : W → ControlFlow E)
    (h : ∀ res outs el,
      routeConnect env classify routes = some (res, outs, el) →
      state.connect_timeout < el) :
    connect_ws state start routes env classify =
      (Except.error (TimeoutOr.Timeout state.connect_timeout), state) := by
  unfold connect_ws
  cases hr : routeConnect env classify routes with
  | none => rfl
  | some v =>
    obtain ⟨res, outs, el⟩ := v
    have hlt := h res outs el hr
    simp [Nat.not_le.mpr hlt]

/-- Concrete instance of C1: two routes that hang forever against a 5-tick
deadline time out and leave the state untouched. -/
theorem connect_ws_merge_on_timeout_witness :
    connect_ws stateA 0 [fakeRoute1, fakeRoute2] envHang contA =
      (Except.error (TimeoutOr.Timeout 5), stateA) :=
  connect_ws_merge_on_timeout stateA 0 [fakeRoute1, fakeRoute2] envHang contA
    (by intro res outs el hr
        simp [routeConnect, attemptRoutes, envHang] at hr)

/-- A single outcome update leaves the scorer parameters unchanged. -/
theorem applyOutcome_params (c : ConnectionOutcomes) (r : WebSocketRoute)
    (o : Outcome) (now : Nat) : (applyOutcome c r o now).params = c.params :=
  rfl

/-- Outcome updates for two distinct routes commute: each update touches
only its own route's table entry. -/
theorem applyOutcome_comm (c : ConnectionOutcomes) (r s : WebSocketRoute)
    (o1 o2 : Outcome) (now : Nat) (h : r ≠ s) :
    applyOutcome (applyOutcome c r o1 now) s o2 now =
      applyOutcome (applyOutcome c s o2 now) r o1 now := by
  have hsr : s ≠ r := Ne.symm h
  apply ConnectionOutcomes.ext
  · rfl
  · funext x
    simp only [applyOutcome]
    by_cases hx : x = s
    · subst hx
      simp [hsr, h]
    · by_cases hx2 : x = r
      · subst hx2
        simp [hsr, h, hx]
      · simp [hx, hx2]

/-- C4 (corrected): the literal claim fails — two updates for the *same*
route, one failure and one success, do not commute, so applying the same
set of updates in an arbitrary permutation can change the final table.
Here the two orders leave route `fakeRoute1` with weight 0 and weight 1
respectively. -/
theorem apply_outcome_updates_order_dependent :
    List.Perm [(fakeRoute1, Outcome.failure), (fakeRoute1, Outcome.success)]
      [(fakeRoute1, Outcome.success), (fakeRoute1, Outcome.failure)] ∧
    (apply_outcome_updates emptyOutcomes
        [(fakeRoute1, Outcome.failure), (fakeRoute1, Outcome.success)]
        7).table fakeRoute1 ≠
      (apply_outcome_updates emptyOutcomes
        [(fakeRoute1, Outcome.success), (fakeRoute1, Outcome.failure)]
        7).table fakeRoute1 := by
  constructor
  · exact List.Perm.swap _ _ _
  · decide

/-- C4 (amended): outcome-record merges commute across routes — applying
the same batch of updates in any permutation yields the same final table
provided the updates target pairwise distinct routes (as the updates of a
single attempt do, one outcome per attempted route); each update only
rewrites the entry of its own route and never performs a cross-route
comparison. -/
theorem apply_outcome_updates_perm (c : ConnectionOutcomes) (now : Nat)
    {l1 l2 : List (WebSocketRoute × Outcome)} (hperm : List.Perm l1 l2)
    (hnodup : (l1.map Prod.fst).Nodup) :
    apply_outcome_updates c l1 now = apply_outcome_updates c l2 now := by
  revert hnodup
  induction hperm generalizing c with
  | nil => intro _; rfl
  | cons x h2 ih =>
    intro hnodup
    rw [List.map_cons, List.nodup_cons] at hnodup
    exact ih (applyOutcome c x.1 x.2 now) hnodup.2
  | swap x y t =>
    intro hnodup
    rw [List.map_cons, List.map_cons, List.nodup_cons] at hnodup
    have hxy : y.1 ≠ x.1 := by
      intro hEq
      exact hnodup.1 (by rw [hEq]; exact List.mem_cons_self _ _)
    show apply_outcome_updates
        (applyOutcome (applyOutcome c y.1 y.2 now) x.1 x.2 now) t now =
      apply_outcome_updates
        (applyOutcome (applyOutcome c x.1 x.2 now) y.1 y.2 now) t now
    rw [applyOutcome_comm c y.1 x.1 y.2 x.2 now hxy]
  | trans h1 h2 ih1 ih2 =>
    intro hnodup
    have hnd2 := (List.Perm.nodup_iff (List.Perm.map Prod.fst h1)).mp hnodup
    exact (ih1 c hnodup).trans (ih2 c hnd2)

/-- Concrete instance of the amended C4: a failure for the first fake route
and a success for the second merge to the same table in either order. -/
theorem apply_outcome_updates_perm_witness :
    apply_outcome_updates emptyOutcomes
        [(fakeRoute1, Outcome.failure), (fakeRoute2, Outcome.success)] 7 =
      apply_outcome_updates emptyOutcomes
        [(fakeRoute2, Outcome.success), (fakeRoute1, Outcome.failure)] 7 :=
  apply_outcome_updates_perm emptyOutcomes 7 (List.Perm.swap _ _ _) (by decide)

/-- The attempt loop on a block of continue-classified failures followed by
a succeeding route: it resolves with that route's connection and saved
description, having recorded one failure per skipped route and one success,
after the sum of the attempt durations. -/
theorem attemptRoutes_continue_then_succeed {C W E : Type}
    (env : WebSocketRoute → Attempt C W) (classify : W → ControlFlow E)
    (pre rest : List WebSocketRoute) (r : WebSocketRoute) (c : C) (d : Nat)
    (hpre : ∀ p ∈ pre, ∃ w dp,
      env p = Attempt.err w dp ∧ classify w = ControlFlow.Continue)
    (hr : env r = Attempt.ok c d) :
    attemptRoutes env classify (pre ++ r :: rest) =
      some (Except.ok (c, describeRoute r),
        pre.map (fun p => (p, Outcome.failure)) ++ [(r, Outcome.success)],
        (pre.map (attemptDur env)).sum + d) := by
  induction pre with
  | nil =>
    simp [attemptRoutes, hr]
  | cons p ps ih =>
    obtain ⟨w, dp, henv, hcls⟩ := hpre p (by simp)
    have ih2 := ih (fun q hq => hpre q (by simp [hq]))
    simp only [List.cons_append, attemptRoutes, henv, hcls,
      List.map_cons, List.sum_cons, attemptDur, List.append_eq]
    rw [ih2]
    simp [Nat.add_assoc]

/-- The attempt loop on a block of continue-classified failures followed by
a break-classified failure: it resolves with `FatalConnect`, carrying the
failure outcomes recorded for the skipped routes, and no route after the
breaking one is ever examined (the result does not depend on the tail). -/
theorem attemptRoutes_break {C W E : Type}
    (env : WebSocketRoute → Attempt C W) (classify : W → ControlFlow E)
    (pre rest : List WebSocketRoute) (r : WebSocketRoute) (w : W) (d : Nat)
    (e : E)
    (hpre : ∀ p ∈ pre, ∃ w2 dp,
      env p = Attempt.err w2 dp ∧ classify w2 = ControlFlow.Continue)
    (hw : env r = Attempt.err w d) (hcls : classify w = ControlFlow.Break e) :
    attemptRoutes env classify (pre ++ r :: rest) =
      some (Except.error (ConnectError.FatalConnect e),
        pre.map (fun p => (p, Outcome.failure)),
        (pre.map (attemptDur env)).sum + d) := by
  induction pre with
  | nil =>
    simp [attemptRoutes, hw, hcls]
  | cons p ps ih =>
    obtain ⟨w2, dp, henv, hcls2⟩ := hpre p (by simp)
    have ih2 := ih (fun q hq => hpre q (by simp [hq]))
    simp only [List.cons_append, attemptRoutes, henv, hcls2,
      List.map_cons, List.sum_cons, attemptDur, List.append_eq]
    rw [ih2]
    simp [Nat.add_assoc]

/-- C2: for every call to `connect_ws` whose ranked candidate list starts
with `M = pre.length` routes that fail with continue-classified errors,
followed by a route `r` that succeeds — all within the deadline — the call
returns success with the connection from `r` and a `RouteInfo` built from
`r`'s unresolved descriptor, and the merge into the shared outcome state
records exactly one failure outcome per skipped route plus one success. -/
theorem connect_ws_continue_then_succeed {C W E : Type} (state : ConnectState)
    (start : Nat) (pre rest : List WebSocketRoute) (r : WebSocketRoute)
    (env : WebSocketRoute → Attempt C W) (classify : W → ControlFlow E)
    (c : C) (d : Nat)
    (hpre : ∀ p ∈ pre, ∃ w dp,
      env p = Attempt.err w dp ∧ classify w = ControlFlow.Continue)
    (hr : env r = Attempt.ok c d)
    (htime : (pre.map (attemptDur env)).sum + d ≤ state.connect_timeout) :
    connect_ws state start (pre ++ r :: rest) env classify =
      (Except.ok (c, { unresolved := describeRoute r }),
       { state with
         attempts_record :=
           apply_outcome_updates state.attempts_record
             (pre.map (fun p => (p, Outcome.failure)) ++ [(r, Outcome.success)])
             (start + ((pre.map (attemptDur env)).sum + d)) }) := by
  have hres := (routeConnect_ne_nil env classify
      (by cases pre <;> simp)).trans
    (attemptRoutes_continue_then_succeed env classify pre rest r c d hpre hr)
  rw [connect_ws_resolved state start (pre ++ r :: rest) env classify _ _ _
    hres htime]

/-- Concrete instance of C2, mirroring the source test scenario: the first
fake route fails with a continue-classified error, the second connects; the
call succeeds through the second route and merges one failure and one
success. -/
theorem connect_ws_continue_then_succeed_witness :
    connect_ws stateA 0 [fakeRoute1, fakeRoute2] envAB contA =
      (Except.ok ((), { unresolved := describeRoute fakeRoute2 }),
       { stateA with
         attempts_record :=
           apply_outcome_updates stateA.attempts_record
             [(fakeRoute1, Outcome.failure), (fakeRoute2, Outcome.success)]
             5 }) := by
  have h := connect_ws_continue_then_succeed stateA 0 [fakeRoute1] []
    fakeRoute2 envAB contA () 2
    (by intro p hp
        rw [List.mem_singleton] at hp
        subst hp
        exact ⟨(), 3, by simp [envAB], rfl⟩)
    (by simp [envAB, fakeRoute1, fakeRoute2])
    (by simp [envAB, attemptDur, stateA])
  simpa [envAB, attemptDur, stateA] using h

/-- C3: for every call to `connect_ws`, if a route's failure is classified
`Break e` (after a block of continue-classified failures, all within the
deadline), the call fails with `FatalConnect e`, the failure outcomes
collected up to that point are still merged into the shared outcome state
(unlike the timeout case), and no subsequent route is attempted: the result
is the same for every tail of later candidates. -/
theorem connect_ws_break_aborts {C W E : Type} (state : ConnectState)
    (start : Nat) (pre rest : List WebSocketRoute) (r : WebSocketRoute)
    (env : WebSocketRoute → Attempt C W) (classify : W → ControlFlow E)
    (w : W) (d : Nat) (e : E)
    (hpre : ∀ p ∈ pre, ∃ w2 dp,
      env p = Attempt.err w2 dp ∧ classify w2 = ControlFlow.Continue)
    (hw : env r = Attempt.err w d) (hcls : classify w = ControlFlow.Break e)
    (htime : (pre.map (attemptDur env)).sum + d ≤ state.connect_timeout) :
    connect_ws state start (pre ++ r :: rest) env classify =
      (Except.error (TimeoutOr.Other (ConnectError.FatalConnect e)),
       { state with
         attempts_record :=
           apply_outcome_updates state.attempts_record
             (pre.map (fun p => (p, Outcome.failure)))
             (start + ((pre.map (attemptDur env)).sum + d)) }) ∧
    ∀ rest2, connect_ws state start (pre ++ r :: rest2) env classify =
      connect_ws state start (pre ++ r :: rest) env classify := by
  have key : ∀ rs, connect_ws state start (pre ++ r :: rs) env classify =
      (Except.error (TimeoutOr.Other (ConnectError.FatalConnect e)),
       { state with
         attempts_record :=
           apply_outcome_updates state.attempts_record
             (pre.map (fun p => (p, Outcome.failure)))
             (start + ((pre.map (attemptDur env)).sum + d)) }) := by
    intro rs
    have hres := (routeConnect_ne_nil env classify
        (by cases pre <;> simp)).trans
      (attemptRoutes_break env classify pre rs r w d e hpre hw hcls)
    rw [connect_ws_resolved state start (pre ++ r :: rs) env classify _ _ _
      hres htime]
  exact ⟨key rest, fun rest2 => (key rest2).trans (key rest).symm⟩

/-- Concrete instance of C3: the first fake route fails and the classifier
breaks; the call fails fatally, merges the (empty) collected updates, and
the result is unchanged when the tail of later candidates changes. -/
theorem connect_ws_break_aborts_witness :
    connect_ws stateA 0 [fakeRoute1, fakeRoute2] envAB brkA =
      (Except.error (TimeoutOr.Other (ConnectError.FatalConnect ())),
       { stateA with
         attempts_record :=
           apply_outcome_updates stateA.attempts_record [] 3 }) ∧
    connect_ws stateA 0 [fakeRoute1] envAB brkA =
      connect_ws stateA 0 [fakeRoute1, fakeRoute2] envAB brkA := by
  have h := connect_ws_break_aborts stateA 0 [] [fakeRoute2] fakeRoute1
    envAB brkA () 3 ()
    (by intro p hp; exact absurd hp (List.not_mem_nil p))
    (by simp [envAB]) rfl
    (by simp [attemptDur, envAB, stateA])
  refine ⟨?_, ?_⟩
  · have h1 := h.1
    simpa [attemptDur, envAB, stateA] using h1
  · have h2 := h.2 []
    simpa using h2

/-- C5 (corrected): the literal claim — the rendering of the `RouteInfo`
returned on success never contains the descriptor's host field as a
substring — fails when the hostname coincides with a fragment of the fixed
redacted text: for a route whose unresolved host is the string "REDACTED",
`connect_ws` succeeds with a `RouteInfo` built from that descriptor and the
rendering "REDACTED:7" does contain the host as a substring. -/
theorem routeinfo_hostname_substring_counterexample :
    (connect_ws stateA 0 [badRoute] envOk contA).1 =
      Except.ok ((), { unresolved := describeRoute badRoute }) ∧
    (describeRoute badRoute).host = "REDACTED" ∧
    containsSub (describeRoute badRoute).host.toList
      (RouteInfo.render { unresolved := describeRoute badRoute }).toList =
      true := by
  refine ⟨rfl, rfl, ?_⟩
  decide

/-- C5 (amended): the redacted rendering is computed from the descriptor's
port and fronting label only — it does not depend on the host field at all,
so a raw hostname can occur in it only by colliding with the fixed redacted
text itself.  In the source test scenario the winning fronted route renders
exactly as "REDACTED:1234 fronted by proxyf", which does not contain the
descriptor's hostname "direct-host". -/
theorem routeinfo_redaction_amended :
    (∀ (d : UnresolvedRouteDescription) (h : String),
      UnresolvedRouteDescription.render
          { host := h, port := d.port, front_name := d.front_name } =
        UnresolvedRouteDescription.render d) ∧
    RouteInfo.render { unresolved := describeRoute fakeRoute2 } =
      "REDACTED:1234 fronted by proxyf" ∧
    (describeRoute fakeRoute2).host = "direct-host" ∧
    containsSub "direct-host".toList
      "REDACTED:1234 fronted by proxyf".toList = false := by
  refine ⟨fun d h => rfl, by decide, rfl, by decide⟩

/-- C6: for every call to `connect_attested_ws`, orchestrator-level errors
are translated so that a timeout, `NoResolvedRoutes` and
`AllAttemptsFailed` all collapse to the single kind `ConnectionTimedOut`,
while a classifier-triggered `FatalConnect e` is passed through to the
caller unchanged as `e`. -/
theorem connect_attested_ws_error_translation {C W H A : Type}
    (state : ConnectState) (start : Nat) (routes : List WebSocketRoute)
    (auth : Auth) (env : WebSocketRoute → Attempt C W) (cls : W → ErrorClass)
    (handshake : C → Except H A)
    (e : TimeoutOr (ConnectError (EnclaveError W H))) (s2 : ConnectState)
    (h : connect_ws state start (attestedWsRoutes auth routes) env
        (attestedClassifier cls) = (Except.error e, s2)) :
    connect_attested_ws state start routes auth env cls handshake =
      (Except.error (attestedMapErr e), s2) ∧
    (∀ dur, attestedMapErr (W := W) (H := H) (TimeoutOr.Timeout dur) =
      EnclaveError.ConnectionTimedOut) ∧
    attestedMapErr (W := W) (H := H)
        (TimeoutOr.Other ConnectError.NoResolvedRoutes) =
      EnclaveError.ConnectionTimedOut ∧
    attestedMapErr (W := W) (H := H)
        (TimeoutOr.Other ConnectError.AllAttemptsFailed) =
      EnclaveError.ConnectionTimedOut ∧
    ∀ e2 : EnclaveError W H,
      attestedMapErr (TimeoutOr.Other (ConnectError.FatalConnect e2)) =
        e2 := by
  refine ⟨?_, fun dur => rfl, rfl, rfl, fun e2 => rfl⟩
  simp only [connect_attested_ws, h]

/-- Concrete instance of C6: with every route hanging, the orchestrator
times out and the attested layer surfaces `ConnectionTimedOut`. -/
theorem connect_attested_ws_error_translation_witness :
    connect_attested_ws stateA 0 [fakeRoute1] authA envHang clsIntermittent
        handshakeOk =
      (Except.error EnclaveError.ConnectionTimedOut, stateA) := by
  have h : connect_ws stateA 0 (attestedWsRoutes authA [fakeRoute1]) envHang
      (attestedClassifier (H := Unit) clsIntermittent) =
      (Except.error (TimeoutOr.Timeout 5), stateA) := by
    simp [connect_ws, routeConnect, attemptRoutes, attestedWsRoutes, envHang,
      stateA]
  exact (connect_attested_ws_error_translation stateA 0 [fakeRoute1] authA
    envHang clsIntermittent handshakeOk _ _ h).1

/-- C7: the error classifier installed by `connect_attested_ws` returns
`Continue` for every per-route error classified intermittent, and `Break`
carrying the wrapped websocket-connect error for every error classified as
rate-limited-retry or fatal. -/
theorem attested_classifier_policy {W H : Type} (cls : W → ErrorClass)
    (w : W) :
    (cls w = ErrorClass.Intermittent →
      attestedClassifier (H := H) cls w = ControlFlow.Continue) ∧
    (∀ t, cls w = ErrorClass.RetryAt t →
      attestedClassifier (H := H) cls w =
        ControlFlow.Break (EnclaveError.WebSocketConnect w)) ∧
    (cls w = ErrorClass.Fatal →
      attestedClassifier (H := H) cls w =
        ControlFlow.Break (EnclaveError.WebSocketConnect w)) := by
  refine ⟨?_, fun t ht => ?_, ?_⟩ <;>
    simp_all [attestedClassifier]

/-- Concrete instances of C7 for each of the three error classes. -/
theorem attested_classifier_policy_witness :
    attestedClassifier (H := Unit) (fun _ : Unit => ErrorClass.Intermittent)
        () = ControlFlow.Continue ∧
    attestedClassifier (H := Unit) (fun _ : Unit => ErrorClass.RetryAt 5)
        () = ControlFlow.Break (EnclaveError.WebSocketConnect ()) ∧
    attestedClassifier (H := Unit) (fun _ : Unit => ErrorClass.Fatal)
        () = ControlFlow.Break (EnclaveError.WebSocketConnect ()) :=
  ⟨(attested_classifier_policy _ ()).1 rfl,
   (attested_classifier_policy _ ()).2.1 5 rfl,
   (attested_classifier_policy _ ()).2.2 rfl⟩

/-- C8: for every call to `connect_attested_ws` and every candidate route,
the authorization header derived from the supplied credentials is present
in that route's websocket-fragment headers in the route set handed to
`connect_ws`. -/
theorem attested_ws_routes_auth_header (auth : Auth)
    (routes : List WebSocketRoute) (r : WebSocketRoute)
    (hr : r ∈ attestedWsRoutes auth routes) :
    auth.as_header ∈ r.fragment.headers := by
  obtain ⟨r0, hr0, rfl⟩ := List.mem_map.mp hr
  simp [injectAuthHeader, headerInsert]

/-- Concrete instance of C8: the injected first fake route carries the
authorization header. -/
theorem attested_ws_routes_auth_header_witness :
    Auth.as_header authA ∈ (injectAuthHeader authA fakeRoute1).fragment.headers :=
  attested_ws_routes_auth_header authA [fakeRoute1] _
    (by simp [attestedWsRoutes])

/-- C9 (corrected): the literal claim — every header already present on the
route is preserved by the auth-header injection — fails under the header
map's extension semantics, which replace existing values of an
already-present name: a route carrying a prior "authorization" header
loses that entry when the credentials are injected. -/
theorem inject_auth_header_replaces_counterexample :
    ("authorization", "old") ∈ preAuthRoute.fragment.headers ∧
    ("authorization", "old") ∉
      (injectAuthHeader authA preAuthRoute).fragment.headers := by
  decide

/-- C9 (amended): the auth-header injection extends each route's header
list in place rather than rebuilding it — every header whose name differs
from the authorization header's name is preserved, prior values under that
one name are replaced, the credential entry is appended — and every other
field of the route (endpoint path, websocket config, HTTP fragment and
transport route) is left unchanged. -/
theorem inject_auth_header_frame_amended (auth : Auth) (r : WebSocketRoute) :
    (injectAuthHeader auth r).fragment.headers =
      r.fragment.headers.filter (fun e => e.1 ≠ (Auth.as_header auth).1) ++
        [auth.as_header] ∧
    (∀ hd, hd ∈ r.fragment.headers → hd.1 ≠ (Auth.as_header auth).1 →
      hd ∈ (injectAuthHeader auth r).fragment.headers) ∧
    (injectAuthHeader auth r).fragment.endpoint = r.fragment.endpoint ∧
    (injectAuthHeader auth r).fragment.ws_config = r.fragment.ws_config ∧
    (injectAuthHeader auth r).inner = r.inner := by
  refine ⟨rfl, ?_, rfl, rfl, rfl⟩
  intro hd hmem hne
  simp only [injectAuthHeader, headerInsert]
  exact List.mem_append_left _ (List.mem_filter.mpr ⟨hmem, by simp [hne]⟩)

/-- Concrete instance of the amended C9: the unrelated "x-extra" header of a
route that also carried an old authorization value survives the injection,
and the rest of the route is unchanged. -/
theorem inject_auth_header_frame_amended_witness :
    ("x-extra", "keep") ∈
      (injectAuthHeader authA preAuthRoute).fragment.headers ∧
    (injectAuthHeader authA preAuthRoute).inner = preAuthRoute.inner :=
  ⟨(inject_auth_header_frame_amended authA preAuthRoute).2.1
      ("x-extra", "keep") (by decide) (by decide),
   (inject_auth_header_frame_amended authA preAuthRoute).2.2.2.2⟩

/-- C10: the `connect_timeout` deadline bounds only the multi-route attempt
inside `connect_ws`.  First part: once the attempt resolves within the
deadline, `connect_ws` never returns a `Timeout` error and performs the
outcome merge.  Second part: once the `connect_ws` stage of
`connect_attested_ws` returns a connection, the final result is determined
by the handshake alone — for every handshake capability it is either the
attested connection or that handshake's own error, never a timeout. -/
theorem connect_timeout_scope :
    (∀ (C W E : Type) (state : ConnectState) (start : Nat)
        (routes : List WebSocketRoute) (env : WebSocketRoute → Attempt C W)
        (classify : W → ControlFlow E)
        (res : Except (ConnectError E) (C × UnresolvedRouteDescription))
        (outs : List (WebSocketRoute × Outcome)) (el : Nat),
      routeConnect env classify routes = some (res, outs, el) →
      el ≤ state.connect_timeout →
      (∀ dur, (connect_ws state start routes env classify).1 ≠
        Except.error (TimeoutOr.Timeout dur)) ∧
      (connect_ws state start routes env classify).2 =
        { state with
          attempts_record :=
            apply_outcome_updates state.attempts_record outs (start + el) }) ∧
    (∀ (C W H A : Type) (state : ConnectState) (start : Nat)
        (routes : List WebSocketRoute) (auth : Auth)
        (env : WebSocketRoute → Attempt C W) (cls : W → ErrorClass)
        (c : C) (info : RouteInfo) (s2 : ConnectState),
      connect_ws state start (attestedWsRoutes auth routes) env
          (attestedClassifier (H := H) cls) = (Except.ok (c, info), s2) →
      ∀ (handshake : C → Except H A),
        connect_attested_ws state start routes auth env cls handshake =
          match handshake c with
          | Except.error h => (Except.error (EnclaveError.AttestationFailed h), s2)
          | Except.ok a => (Except.ok (a, info), s2)) := by
  constructor
  · intro C W E state start routes env classify res outs el hres hel
    rw [connect_ws_resolved state start routes env classify res outs el hres
      hel]
    constructor
    · intro dur
      cases res with
      | error e => simp
      | ok v => obtain ⟨c, desc⟩ := v; simp
    · cases res with
      | error e => rfl
      | ok v => obtain ⟨c, desc⟩ := v; rfl
  · intro C W H A state start routes auth env cls c info s2 h handshake
    simp only [connect_attested_ws, h]

/-- Concrete instance of C10: a route resolving after 2 ticks against a
5-tick deadline never yields a timeout, and with a succeeding handshake the
attested call returns the attested connection. -/
theorem connect_timeout_scope_witness :
    (connect_ws stateA 0 [fakeRoute1] envOk contA).1 ≠
      Except.error (TimeoutOr.Timeout 5) ∧
    connect_attested_ws stateA 0 [fakeRoute1] authA envOk clsIntermittent
        handshakeOk =
      (Except.ok ((),
         { unresolved := describeRoute (injectAuthHeader authA fakeRoute1) }),
       (connect_ws stateA 0 (attestedWsRoutes authA [fakeRoute1]) envOk
         (attestedClassifier (H := Unit) clsIntermittent)).2) := by
  constructor
  · exact (connect_timeout_scope.1 Unit Unit Unit stateA 0 [fakeRoute1] envOk
      contA (Except.ok ((), describeRoute fakeRoute1))
      [(fakeRoute1, Outcome.success)] 2 rfl (by decide)).1 5
  · exact connect_timeout_scope.2 Unit Unit Unit Unit stateA 0 [fakeRoute1]
      authA envOk clsIntermittent ()
      { unresolved := describeRoute (injectAuthHeader authA fakeRoute1) }
      _ rfl handshakeOk

end LibsignalNet
